import Mathlib

/-!
Verification development for a turn-based dungeon-crawler written in Go.

The Go sources (player.go: player actions and combat; dungeon generation;
items; the command loop) are shallowly embedded below.  Go machine integers
are modelled as `Int`; Go slices as `List`; the process-wide random source
as an explicit stream of natural numbers threaded through every function
that draws from it (`rand.Intn n` becomes "take the next stream value
modulo n").  Functions keep the source's names and structure.
-/

/-- TileType of the dungeon grid.  The Go code stores these as runes in
`Grid [][]rune`; the only runes ever written to the grid are the six tile
constants, so the grid is modelled as a list of lists of `TileType`. -/
inductive TileType where
  | Floor
  | Wall
  | Door
  | Treasure
  | Trap
  | StairsDown
deriving DecidableEq, Repr

/-- Item categories (item.go `ItemType`). -/
inductive ItemType where
  | ItemGold
  | ItemPotion
  | ItemWeapon
  | ItemArmor
  | ItemTreasure
  | ItemKey
deriving DecidableEq, Repr

/-- An item (item.go `Item`). -/
structure Item where
  x : Int
  y : Int
  type : ItemType
  name : String
  description : String
  value : Int
  symbol : Char
  collected : Bool
deriving DecidableEq, Repr

/-- A rectangular room (dungeon.go `Room`). -/
structure Room where
  x : Int
  y : Int
  width : Int
  height : Int
deriving DecidableEq, Repr

/-- An enemy (dungeon.go `Enemy`).  Go keeps `[]*Enemy`; identity of a
pointer is modelled by the index in the enemy list. -/
structure Enemy where
  x : Int
  y : Int
  health : Int
  symbol : Char
  name : String
  damage : Int
  hostile : Bool
deriving DecidableEq, Repr

/-- The dungeon aggregate (dungeon.go `Dungeon`). -/
structure Dungeon where
  width : Int
  height : Int
  grid : List (List TileType)
  rooms : List Room
  enemies : List Enemy
  items : List Item
  level : Int
deriving DecidableEq, Repr

/-- The player (player.go `Player`). -/
structure Player where
  x : Int
  y : Int
  health : Int
  maxHealth : Int
  attack : Int
  defense : Int
  gold : Int
  level : Int
  exp : Int
  inventory : List Item
deriving DecidableEq, Repr

/-- The process-wide random source: an arbitrary stream of naturals plus a
cursor.  Every call that consumes randomness advances the cursor by one. -/
structure Rng where
  stream : Nat → Nat
  idx : Nat

/-- Model of Go `rand.Intn n`: a uniform integer in `[0, n)`, modelled as
the next stream value reduced modulo `n`.  Go panics when `n ≤ 0`; every
call in this program passes a positive bound, and the `else` branch is
unreachable on those calls. -/
def randIntn (n : Int) (r : Rng) : Int × Rng :=
  (if 0 < n then ((r.stream r.idx : Int) % n) else 0, ⟨r.stream, r.idx + 1⟩)

theorem randIntn_nonneg (n : Int) (r : Rng) : 0 ≤ (randIntn n r).1 := by
  unfold randIntn
  by_cases h : 0 < n
  · simp only [if_pos h]
    exact Int.emod_nonneg _ (by omega)
  · simp [if_neg h]

theorem randIntn_lt (n : Int) (r : Rng) (h : 0 < n) : (randIntn n r).1 < n := by
  unfold randIntn
  simp only [if_pos h]
  exact Int.emod_lt_of_pos _ h

/-- Read `g[y][x]`.  Go panics on an out-of-range index; every read in this
program is either bounds-guarded by the caller or within loop bounds, so
the `Wall` default is unreachable there. -/
def gridGet (g : List (List TileType)) (x y : Int) : TileType :=
  (g.getD y.toNat []).getD x.toNat TileType.Wall

/-- Write `g[y][x] = t`.  As with `gridGet`, Go panics out of range; in
this program every write is in bounds, where `List.set` is exact. -/
def gridSet (g : List (List TileType)) (x y : Int) (t : TileType) :
    List (List TileType) :=
  g.set y.toNat ((g.getD y.toNat []).set x.toNat t)

/-- Dungeon invariant maintained by the code: the grid has `height` rows of
`width` cells each. -/
def wellFormed (d : Dungeon) : Prop :=
  d.grid.length = d.height.toNat ∧ ∀ row ∈ d.grid, row.length = d.width.toNat

instance (d : Dungeon) : Decidable (wellFormed d) := by
  unfold wellFormed; infer_instance

/-- `GetTileAt` (dungeon.go): total tile query, out of bounds reads as Wall. -/
def getTileAt (d : Dungeon) (x y : Int) : TileType :=
  if x < 0 ∨ y < 0 ∨ x ≥ d.width ∨ y ≥ d.height then TileType.Wall
  else gridGet d.grid x y

/-- `IsWalkable` (dungeon.go): bounds check, then a switch on the tile. -/
def isWalkable (d : Dungeon) (x y : Int) : Bool :=
  if x < 0 ∨ y < 0 ∨ x ≥ d.width ∨ y ≥ d.height then false
  else
    match gridGet d.grid x y with
    | TileType.Floor => true
    | TileType.Door => true
    | TileType.Treasure => true
    | TileType.Trap => true
    | TileType.StairsDown => true
    | _ => false

/-- `GetEnemyAt` (dungeon.go): first living enemy at the coordinates. -/
def getEnemyAt (d : Dungeon) (x y : Int) : Option Enemy :=
  d.enemies.find? (fun e => e.x == x && e.y == y && decide (e.health > 0))

/-- Index-returning version of `GetItemAt` (dungeon.go): Go returns a
pointer into `d.Items`, modelled by the index of the first uncollected
item at the coordinates. -/
def getItemIdxAt (items : List Item) (x y : Int) : Option Nat :=
  items.findIdx? (fun it => it.x == x && it.y == y && !it.collected)

/-- `NewPlayer` (player.go). -/
def newPlayer (x y : Int) : Player :=
  ⟨x, y, 20, 20, 3, 1, 0, 1, 0, []⟩

/-- `CheckLevelUp` (player.go): while `Exp ≥ 100 * Level`, level up and
re-check.  (`expNeeded := 100 * p.Level` is inlined at both uses.) -/
def checkLevelUp (p : Player) : Player :=
  if h : p.exp ≥ 100 * p.level then
    checkLevelUp { p with
      level := p.level + 1
      exp := p.exp - 100 * p.level
      maxHealth := p.maxHealth + 5
      health := p.maxHealth + 5
      attack := p.attack + 1 }
  else p
termination_by ((1 - p.level).toNat, p.exp.toNat)
decreasing_by
  by_cases hl : p.level ≤ 0
  · exact Prod.Lex.left _ _ (by omega)
  · have e1 : (1 - (p.level + 1)).toNat = 0 := by omega
    have e2 : (1 - p.level).toNat = 0 := by omega
    rw [e1, e2]
    exact Prod.Lex.right _ (by omega)

/-- One level-up iteration, modelled from the spec's words: "increment
level, subtract threshold from experience, increase maxHealth by 5, fully
heal to new maxHealth, increment attack by 1". -/
def levelUpStepSpec (p : Player) : Player :=
  let threshold := 100 * p.level
  { p with
    level := p.level + 1
    exp := p.exp - threshold
    maxHealth := p.maxHealth + 5
    health := p.maxHealth + 5
    attack := p.attack + 1 }

/-- `UseItem` (player.go).  The Bool result records whether the index was
accepted (`false` = the "Invalid item index." early return). -/
def useItem (p : Player) (itemIndex : Int) : Player × Bool :=
  if itemIndex < 0 ∨ itemIndex ≥ (p.inventory.length : Int) then
    (p, false)
  else
    match p.inventory.get? itemIndex.toNat with
    | none => (p, true)
    | some item =>
      match item.type with
      | ItemType.ItemPotion =>
          let healAmount := item.value
          let health := p.health + healAmount
          let health := if health > p.maxHealth then p.maxHealth else health
          ({ p with
              health := health
              inventory := p.inventory.take itemIndex.toNat ++
                p.inventory.drop (itemIndex.toNat + 1) }, true)
      | ItemType.ItemWeapon => ({ p with attack := item.value }, true)
      | ItemType.ItemArmor => ({ p with defense := item.value }, true)
      | _ => (p, true)

/-- `CollectItem` (player.go): the player-side effect of collecting.  The
item was already marked collected by the caller; gold adds to the purse,
potion/weapon/armor are appended to the inventory, anything else (the
Treasure/Key types) only stays marked collected. -/
def collectItem (p : Player) (it : Item) : Player :=
  let it := { it with collected := true }
  match it.type with
  | ItemType.ItemGold => { p with gold := p.gold + it.value }
  | ItemType.ItemPotion => { p with inventory := p.inventory ++ [it] }
  | ItemType.ItemWeapon => { p with inventory := p.inventory ++ [it] }
  | ItemType.ItemArmor => { p with inventory := p.inventory ++ [it] }
  | _ => p

/-- First half of `CheckPosition` (player.go): the switch on the tile under
the player.  Treasure: gain 10–29 gold and the tile reverts to Floor;
Trap: take 2–4 damage and the tile reverts to Floor; Door: the tile
reverts to Floor; anything else: no effect. -/
def checkTileEffect (p : Player) (d : Dungeon) (r : Rng) :
    Player × Dungeon × Rng :=
  match getTileAt d p.x p.y with
  | TileType.Treasure =>
      let (v, r) := randIntn 20 r
      ({ p with gold := p.gold + (10 + v) },
       { d with grid := gridSet d.grid p.x p.y TileType.Floor }, r)
  | TileType.Trap =>
      let (v, r) := randIntn 3 r
      ({ p with health := p.health - (2 + v) },
       { d with grid := gridSet d.grid p.x p.y TileType.Floor }, r)
  | TileType.Door =>
      (p, { d with grid := gridSet d.grid p.x p.y TileType.Floor }, r)
  | _ => (p, d, r)

/-- Second half of `CheckPosition` (player.go): collect an uncollected item
sharing the player's position, marking it collected in the dungeon's list. -/
def checkItemPickup (p : Player) (d : Dungeon) (r : Rng) :
    Player × Dungeon × Rng :=
  match getItemIdxAt d.items p.x p.y with
  | some i =>
      match d.items.get? i with
      | some it =>
          (collectItem p it,
           { d with items := d.items.set i { it with collected := true } }, r)
      | none => (p, d, r)
  | none => (p, d, r)

/-- `CheckPosition` (player.go): tile effect, then item pickup. -/
def checkPosition (p : Player) (d : Dungeon) (r : Rng) :
    Player × Dungeon × Rng :=
  let (p, d, r) := checkTileEffect p d r
  checkItemPickup p d r

/-- `RemoveEnemy` (dungeon.go) removes the enemy `==` a given pointer;
pointer identity is the index `i` here. -/
def removeEnemyAt (d : Dungeon) (i : Nat) : Dungeon :=
  { d with enemies := d.enemies.take i ++ d.enemies.drop (i + 1) }

/-- `AttackEnemy` (player.go), fighting the enemy at index `i` of
`d.enemies` (the Go code receives a pointer into that slice).  Kill branch:
experience award, level-up check, removal, 50% chance of 1–10 gold.
Survive branch: counterattack for `max 1 (damage - defense)`. -/
def attackEnemy (p : Player) (d : Dungeon) (i : Nat) (r : Rng) :
    Player × Dungeon × Rng :=
  match d.enemies.get? i with
  | none => (p, d, r)
  | some enemy =>
    let damage := p.attack
    let enemy := { enemy with health := enemy.health - damage }
    if enemy.health ≤ (0 : Int) then
      let expGain := 5 + enemy.damage * 2
      let p := { p with exp := p.exp + expGain }
      let p := checkLevelUp p
      let d := removeEnemyAt d i
      let (c, r) := randIntn 2 r
      if c = 0 then
        let (g, r) := randIntn 10 r
        ({ p with gold := p.gold + (1 + g) }, d, r)
      else (p, d, r)
    else
      let enemyDamage := enemy.damage - p.defense
      let enemyDamage := if enemyDamage < 1 then 1 else enemyDamage
      ({ p with health := p.health - enemyDamage },
       { d with enemies := d.enemies.set i enemy }, r)

/-- `carveRoom` (dungeon.go): set every cell of the room to Floor. -/
def carveRoom (g : List (List TileType)) (room : Room) : List (List TileType) :=
  (List.range room.height.toNat).foldl
    (fun g dy =>
      (List.range room.width.toNat).foldl
        (fun g dx => gridSet g (room.x + (dx : Int)) (room.y + (dy : Int)) TileType.Floor)
        g)
    g

/-- `roomsOverlap` (dungeon.go): the axis-aligned box test with the 1-tile
buffer, exactly as written in the source. -/
def roomsOverlap (r1 r2 : Room) : Bool :=
  decide (r1.x - 1 ≤ r2.x + r2.width) && decide (r1.x + r1.width + 1 ≥ r2.x) &&
  decide (r1.y - 1 ≤ r2.y + r2.height) && decide (r1.y + r1.height + 1 ≥ r2.y)

/-- The `for i := 0; i < numRooms; i++` body of `generateRooms`
(dungeon.go): draw width, height, x, y; reject the candidate if it
overlaps any placed room, otherwise carve it and append it. -/
def generateRoomsLoop (d : Dungeon) (n : Nat) (r : Rng) : Dungeon × Rng :=
  match n with
  | 0 => (d, r)
  | Nat.succ m =>
    let minSize : Int := 4
    let maxSize : Int := 10
    let (wd, r) := randIntn (maxSize - minSize + 1) r
    let width := minSize + wd
    let (hd, r) := randIntn (maxSize - minSize + 1) r
    let height := minSize + hd
    let (xd, r) := randIntn (d.width - width - 2) r
    let x := 1 + xd
    let (yd, r) := randIntn (d.height - height - 2) r
    let y := 1 + yd
    let newRoom : Room := ⟨x, y, width, height⟩
    let overlap := d.rooms.any (fun room => roomsOverlap newRoom room)
    let d :=
      if overlap then d
      else { d with grid := carveRoom d.grid newRoom, rooms := d.rooms ++ [newRoom] }
    generateRoomsLoop d m r

/-- `generateRooms` (dungeon.go): random room count in
`[minRooms, maxRooms]`, the placement loop, then the fallback room
covering the middle of the grid if nothing was placed. -/
def generateRooms (d : Dungeon) (minRooms maxRooms : Int) (r : Rng) :
    Dungeon × Rng :=
  let (k, r) := randIntn (maxRooms - minRooms + 1) r
  let numRooms := minRooms + k
  let (d, r) := generateRoomsLoop d numRooms.toNat r
  let d :=
    if d.rooms.length = 0 then
      let room : Room := ⟨d.width / 4, d.height / 4, d.width / 2, d.height / 2⟩
      { d with grid := carveRoom d.grid room, rooms := d.rooms ++ [room] }
    else d
  (d, r)

/-- `createHorizontalCorridor` (dungeon.go): carve Floor along row `y` from
the smaller to the larger of `x1, x2`, clipped to the grid bounds. -/
def createHorizontalCorridor (d : Dungeon) (x1 x2 y : Int) : Dungeon :=
  let lo := if x1 > x2 then x2 else x1
  let hi := if x1 > x2 then x1 else x2
  let g :=
    (List.range (hi - lo + 1).toNat).foldl
      (fun g k =>
        let x := lo + (k : Int)
        if y ≥ 0 ∧ y < d.height ∧ x ≥ 0 ∧ x < d.width then
          gridSet g x y TileType.Floor
        else g)
      d.grid
  { d with grid := g }

/-- `createVerticalCorridor` (dungeon.go). -/
def createVerticalCorridor (d : Dungeon) (y1 y2 x : Int) : Dungeon :=
  let lo := if y1 > y2 then y2 else y1
  let hi := if y1 > y2 then y1 else y2
  let g :=
    (List.range (hi - lo + 1).toNat).foldl
      (fun g k =>
        let y := lo + (k : Int)
        if y ≥ 0 ∧ y < d.height ∧ x ≥ 0 ∧ x < d.width then
          gridSet g x y TileType.Floor
        else g)
      d.grid
  { d with grid := g }

/-- One iteration of the `connectRooms` loop (dungeon.go): connect the
centers of rooms `i` and `i+1` with an L-shaped corridor, the bend
direction chosen at random. -/
def connectPair (d : Dungeon) (i : Nat) (r : Rng) : Dungeon × Rng :=
  let r1 := d.rooms.getD i ⟨0, 0, 0, 0⟩
  let r2 := d.rooms.getD (i + 1) ⟨0, 0, 0, 0⟩
  let x1 := r1.x + r1.width / 2
  let y1 := r1.y + r1.height / 2
  let x2 := r2.x + r2.width / 2
  let y2 := r2.y + r2.height / 2
  let (c, r) := randIntn 2 r
  if c = 0 then
    let d := createHorizontalCorridor d x1 x2 y1
    let d := createVerticalCorridor d y1 y2 x2
    (d, r)
  else
    let d := createVerticalCorridor d y1 y2 x1
    let d := createHorizontalCorridor d x1 x2 y2
    (d, r)

/-- The `for i := 0; i < len(d.Rooms)-1; i++` loop of `connectRooms`. -/
def connectRoomsLoop (d : Dungeon) (count i : Nat) (r : Rng) : Dungeon × Rng :=
  match count with
  | 0 => (d, r)
  | Nat.succ m =>
    let (d, r) := connectPair d i r
    connectRoomsLoop d m (i + 1) r

/-- `connectRooms` (dungeon.go). -/
def connectRooms (d : Dungeon) (r : Rng) : Dungeon × Rng :=
  if d.rooms.length ≤ 1 then (d, r)
  else connectRoomsLoop d (d.rooms.length - 1) 0 r

/-- The per-cell body of `addDoors` (dungeon.go): a Floor cell pinched
between Walls above/below or left/right gets a 10% chance to become a
Door.  The random draw happens only when the cell qualifies. -/
def addDoorsCell (d : Dungeon) (x y : Int) (r : Rng) : Dungeon × Rng :=
  if gridGet d.grid x y = TileType.Floor ∧
     ((gridGet d.grid x (y - 1) = TileType.Wall ∧
       gridGet d.grid x (y + 1) = TileType.Wall) ∨
      (gridGet d.grid (x - 1) y = TileType.Wall ∧
       gridGet d.grid (x + 1) y = TileType.Wall)) then
    let (c, r) := randIntn 100 r
    if c < 10 then ({ d with grid := gridSet d.grid x y TileType.Door }, r)
    else (d, r)
  else (d, r)

/-- `addDoors` (dungeon.go): scan the interior cells in row-major order. -/
def addDoors (d : Dungeon) (r : Rng) : Dungeon × Rng :=
  (List.range (d.height - 2).toNat).foldl
    (fun st dy =>
      (List.range (d.width - 2).toNat).foldl
        (fun st dx => addDoorsCell st.1 (1 + (dx : Int)) (1 + (dy : Int)) st.2)
        st)
    (d, r)

/-- The per-room body of `addTreasures` (dungeon.go): 40% chance to place a
Treasure tile at a random position in the room and append the matching
world item (type `ItemTreasure`, name "Gold", value 10–99). -/
def addTreasureRoom (d : Dungeon) (room : Room) (r : Rng) : Dungeon × Rng :=
  let (c, r) := randIntn 100 r
  if c < 40 then
    let (xd, r) := randIntn room.width r
    let treasureX := room.x + xd
    let (yd, r) := randIntn room.height r
    let treasureY := room.y + yd
    let d := { d with grid := gridSet d.grid treasureX treasureY TileType.Treasure }
    let (v, r) := randIntn 90 r
    let item : Item :=
      ⟨treasureX, treasureY, ItemType.ItemTreasure, "Gold", "", 10 + v, '$', false⟩
    ({ d with items := d.items ++ [item] }, r)
  else (d, r)

/-- `addTreasures` (dungeon.go): the per-room chance for every room. -/
def addTreasures (d : Dungeon) (r : Rng) : Dungeon × Rng :=
  d.rooms.foldl (fun st room => addTreasureRoom st.1 room st.2) (d, r)

/-- The up-to-50-attempts inner loop of `addTraps` (dungeon.go): pick a
random interior cell; if it is plain Floor, convert it to Trap and stop. -/
def addTrapsAttempt (d : Dungeon) (attempts : Nat) (r : Rng) : Dungeon × Rng :=
  match attempts with
  | 0 => (d, r)
  | Nat.succ m =>
    let (xd, r) := randIntn (d.width - 2) r
    let x := 1 + xd
    let (yd, r) := randIntn (d.height - 2) r
    let y := 1 + yd
    if gridGet d.grid x y = TileType.Floor then
      ({ d with grid := gridSet d.grid x y TileType.Trap }, r)
    else addTrapsAttempt d m r

/-- The outer loop of `addTraps`. -/
def addTrapsLoop (d : Dungeon) (n : Nat) (r : Rng) : Dungeon × Rng :=
  match n with
  | 0 => (d, r)
  | Nat.succ m =>
    let (d, r) := addTrapsAttempt d 50 r
    addTrapsLoop d m r

/-- `addTraps` (dungeon.go): 2–5 traps, each placed by the attempt loop. -/
def addTraps (d : Dungeon) (r : Rng) : Dungeon × Rng :=
  let (k, r) := randIntn 4 r
  let numTraps := 2 + k
  addTrapsLoop d numTraps.toNat r

/-- `addFeatures` (dungeon.go): doors, treasures, traps, then the stairs at
the center of the last room. -/
def addFeatures (d : Dungeon) (r : Rng) : Dungeon × Rng :=
  let (d, r) := addDoors d r
  let (d, r) := addTreasures d r
  let (d, r) := addTraps d r
  let d :=
    if d.rooms.length > 0 then
      let lastRoom := d.rooms.getD (d.rooms.length - 1) ⟨0, 0, 0, 0⟩
      let stairsX := lastRoom.x + lastRoom.width / 2
      let stairsY := lastRoom.y + lastRoom.height / 2
      { d with grid := gridSet d.grid stairsX stairsY TileType.StairsDown }
    else d
  (d, r)

/-- The fixed five-entry enemy table of `spawnEnemies` (dungeon.go):
(name, symbol, health, damage). -/
def enemyTypesFive : List (String × Char × Int × Int) :=
  [("Goblin", 'g', 3, 1), ("Orc", 'o', 5, 2), ("Troll", 'T', 8, 3),
   ("Rat", 'r', 1, 1), ("Skeleton", 's', 4, 2)]

/-- Build an `Enemy` from a table entry, hostile, as both spawners do. -/
def mkEnemy (x y : Int) (t : String × Char × Int × Int) : Enemy :=
  ⟨x, y, t.2.2.1, t.2.1, t.1, t.2.2.2, true⟩

/-- The stats of an enemy as a table entry. -/
def enemyStats (e : Enemy) : String × Char × Int × Int :=
  (e.name, e.symbol, e.health, e.damage)

/-- The spawn loop of `spawnEnemies` (dungeon.go): stop if fewer than two
rooms; otherwise pick a non-starting room, a position in it, and a type
from the five-entry table. -/
def spawnEnemiesLoop (d : Dungeon) (n : Nat) (r : Rng) : Dungeon × Rng :=
  match n with
  | 0 => (d, r)
  | Nat.succ m =>
    if d.rooms.length ≤ 1 then (d, r)
    else
      let (ri, r) := randIntn ((d.rooms.length : Int) - 1) r
      let roomIndex := 1 + ri
      let room := d.rooms.getD roomIndex.toNat ⟨0, 0, 0, 0⟩
      let (xd, r) := randIntn room.width r
      let x := room.x + xd
      let (yd, r) := randIntn room.height r
      let y := room.y + yd
      let (ti, r) := randIntn (enemyTypesFive.length : Int) r
      let enemyType := enemyTypesFive.getD ti.toNat ("Goblin", 'g', 3, 1)
      let enemy := mkEnemy x y enemyType
      spawnEnemiesLoop { d with enemies := d.enemies ++ [enemy] } m r

/-- `spawnEnemies` (dungeon.go). -/
def spawnEnemies (d : Dungeon) (min max : Int) (r : Rng) : Dungeon × Rng :=
  let (k, r) := randIntn (max - min + 1) r
  spawnEnemiesLoop d (min + k).toNat r

/-- `NewDungeon` (dungeon.go): an all-Wall grid, then rooms, corridors,
features, and 3–6 enemies.  `Level` is set to 1.  (Go also reseeds the
global random source here; in this model the caller's stream continues.) -/
def newDungeon (w h : Int) (r : Rng) : Dungeon × Rng :=
  let grid := List.replicate h.toNat (List.replicate w.toNat TileType.Wall)
  let d : Dungeon := ⟨w, h, grid, [], [], [], 1⟩
  let (d, r) := generateRooms d 4 8 r
  let (d, r) := connectRooms d r
  let (d, r) := addFeatures d r
  let (d, r) := spawnEnemies d 3 6 r
  (d, r)

/-- The `">"` branch of the command loop (main.go): if the player stands on
StairsDown, replace the dungeon by `NewDungeon(80, 24)`, set the new
dungeon's counter to its own value plus one, and move the player to the
center of the new first room. -/
def descend (p : Player) (d : Dungeon) (r : Rng) : Player × Dungeon × Rng :=
  if getTileAt d p.x p.y = TileType.StairsDown then
    let (nd, r) := newDungeon 80 24 r
    let nd := { nd with level := nd.level + 1 }
    let p :=
      if nd.rooms.length > 0 then
        let room := nd.rooms.getD 0 ⟨0, 0, 0, 0⟩
        { p with x := room.x + room.width / 2, y := room.y + room.height / 2 }
      else { p with x := 1, y := 1 }
    (p, nd, r)
  else (p, d, r)

/-- The two-entry enemy table of `spawnEnemyNearPlayer` (main.go). -/
def enemyTypesTwo : List (String × Char × Int × Int) :=
  [("Goblin", 'g', 3, 1), ("Rat", 'r', 1, 1)]

/-- The position scan of `spawnEnemyNearPlayer` (main.go): try the eight
neighbours in order; at the first walkable, enemy-free one, draw a type
from the two-entry table and add the enemy. -/
def spawnEnemyNearPlayerLoop (p : Player) (d : Dungeon)
    (ps : List (Int × Int)) (r : Rng) : Dungeon × Rng :=
  match ps with
  | [] => (d, r)
  | pos :: rest =>
    let x := p.x + pos.1
    let y := p.y + pos.2
    if isWalkable d x y ∧ getEnemyAt d x y = none then
      let (ti, r) := randIntn ((enemyTypesTwo.length : Int)) r
      let enemyType := enemyTypesTwo.getD ti.toNat ("Goblin", 'g', 3, 1)
      ({ d with enemies := d.enemies ++ [mkEnemy x y enemyType] }, r)
    else spawnEnemyNearPlayerLoop p d rest r

/-- `spawnEnemyNearPlayer` (main.go). -/
def spawnEnemyNearPlayer (p : Player) (d : Dungeon) (r : Rng) : Dungeon × Rng :=
  spawnEnemyNearPlayerLoop p d
    [(-1, -1), (0, -1), (1, -1), (-1, 0), (1, 0), (-1, 1), (0, 1), (1, 1)] r

/-! ### Helper lemmas -/

theorem checkLevelUp_of_lt (p : Player) (h : p.exp < 100 * p.level) :
    checkLevelUp p = p := by
  rw [checkLevelUp, dif_neg (by omega)]

theorem checkLevelUp_of_ge (p : Player) (h : 100 * p.level ≤ p.exp) :
    checkLevelUp p = checkLevelUp (levelUpStepSpec p) := by
  rw [checkLevelUp, dif_pos h]
  rfl

theorem levelUpStepSpec_fields (p : Player) :
    (levelUpStepSpec p).level = p.level + 1 ∧
    (levelUpStepSpec p).exp = p.exp - 100 * p.level ∧
    (levelUpStepSpec p).maxHealth = p.maxHealth + 5 ∧
    (levelUpStepSpec p).health = (levelUpStepSpec p).maxHealth ∧
    (levelUpStepSpec p).attack = p.attack + 1 := by
  simp [levelUpStepSpec]

theorem checkLevelUp_fuel (n : Nat) : ∀ p : Player, p.exp.toNat ≤ n → 1 ≤ p.level →
    (checkLevelUp p).exp < 100 * (checkLevelUp p).level := by
  induction n with
  | zero =>
    intro p hn hl
    have h : ¬ 100 * p.level ≤ p.exp := by omega
    rw [checkLevelUp_of_lt p (by omega)]
    omega
  | succ m ih =>
    intro p hn hl
    by_cases h : 100 * p.level ≤ p.exp
    · rw [checkLevelUp_of_ge p h]
      apply ih
      · simp only [levelUpStepSpec]
        omega
      · simp only [levelUpStepSpec]
        omega
    · rw [checkLevelUp_of_lt p (by omega)]
      omega

theorem checkLevelUp_exp_lt (p : Player) (hl : 1 ≤ p.level) :
    (checkLevelUp p).exp < 100 * (checkLevelUp p).level :=
  checkLevelUp_fuel p.exp.toNat p (le_refl _) hl

theorem gridSet_length (g : List (List TileType)) (x y : Int) (t : TileType) :
    (gridSet g x y t).length = g.length := by
  simp [gridSet]

theorem wellFormed_gridSet (d : Dungeon) (x y : Int) (t : TileType)
    (hwf : wellFormed d) :
    wellFormed { d with grid := gridSet d.grid x y t } := by
  obtain ⟨hlen, hrows⟩ := hwf
  constructor
  · simpa [gridSet] using hlen
  · intro row hrow
    simp only at hrow
    by_cases hyl : y.toNat < d.grid.length
    · rcases List.mem_or_eq_of_mem_set hrow with hmem | heq
      · exact hrows _ hmem
      · subst heq
        rw [List.length_set]
        rw [List.getD_eq_getElem?_getD, List.getElem?_eq_getElem hyl]
        exact hrows _ (List.getElem_mem hyl)
    · rw [gridSet, List.set_eq_of_length_le (by omega)] at hrow
      exact hrows _ hrow

theorem getTileAt_gridSet_self (d : Dungeon) (x y : Int) (t : TileType)
    (hwf : wellFormed d) (hx0 : 0 ≤ x) (hy0 : 0 ≤ y)
    (hx : x < d.width) (hy : y < d.height) :
    getTileAt { d with grid := gridSet d.grid x y t } x y = t := by
  obtain ⟨hlen, hrows⟩ := hwf
  have hyl : y.toNat < d.grid.length := by omega
  have hrowlen : (d.grid.getD y.toNat []).length = d.width.toNat := by
    rw [List.getD_eq_getElem?_getD, List.getElem?_eq_getElem hyl]
    exact hrows _ (List.getElem_mem hyl)
  have hxl : x.toNat < (d.grid.getD y.toNat []).length := by omega
  unfold getTileAt
  dsimp only
  rw [if_neg (by omega)]
  unfold gridGet gridSet
  simp only [List.getD_eq_getElem?_getD] at hxl ⊢
  rw [List.getElem?_set_self hyl, Option.getD_some,
    List.getElem?_set_self hxl, Option.getD_some]

theorem getTileAt_inBounds (d : Dungeon) (x y : Int)
    (h : getTileAt d x y ≠ TileType.Wall) :
    0 ≤ x ∧ 0 ≤ y ∧ x < d.width ∧ y < d.height := by
  by_contra hc
  apply h
  unfold getTileAt
  rw [if_pos (by omega)]

theorem collectItem_health (p : Player) (it : Item) :
    (collectItem p it).health = p.health := by
  rcases it with ⟨ix, iy, ity, inm, idsc, iv, isym, ic⟩
  cases ity <;> rfl

theorem checkItemPickup_preserves (p : Player) (d : Dungeon) (r : Rng) :
    (checkItemPickup p d r).1.health = p.health ∧
    (checkItemPickup p d r).2.1.grid = d.grid ∧
    (checkItemPickup p d r).2.1.width = d.width ∧
    (checkItemPickup p d r).2.1.height = d.height := by
  cases h1 : getItemIdxAt d.items p.x p.y with
  | none => simp [checkItemPickup, h1]
  | some i =>
    cases h2 : d.items.get? i with
    | none =>
      simp only [List.get?_eq_getElem?] at h2
      simp [checkItemPickup, h1, h2]
    | some it =>
      simp only [List.get?_eq_getElem?] at h2
      simp [checkItemPickup, h1, h2, collectItem_health]

theorem checkTileEffect_trap (p : Player) (d : Dungeon) (r : Rng)
    (h : getTileAt d p.x p.y = TileType.Trap) :
    checkTileEffect p d r =
      ({ p with health := p.health - (2 + (randIntn 3 r).1) },
       { d with grid := gridSet d.grid p.x p.y TileType.Floor },
       (randIntn 3 r).2) := by
  unfold checkTileEffect
  rw [h]

theorem checkTileEffect_floor (p : Player) (d : Dungeon) (r : Rng)
    (h : getTileAt d p.x p.y = TileType.Floor) :
    checkTileEffect p d r = (p, d, r) := by
  unfold checkTileEffect
  rw [h]

theorem foldl_level_invariant {α : Type} (f : (Dungeon × Rng) → α → (Dungeon × Rng))
    (hf : ∀ st a, (f st a).1.level = st.1.level) :
    ∀ (l : List α) (st : Dungeon × Rng), (l.foldl f st).1.level = st.1.level := by
  intro l
  induction l with
  | nil => intro st; rfl
  | cons a as ih => intro st; rw [List.foldl_cons, ih, hf]

theorem generateRoomsLoop_level (n : Nat) :
    ∀ (d : Dungeon) (r : Rng), (generateRoomsLoop d n r).1.level = d.level := by
  induction n with
  | zero => intro d r; rfl
  | succ m ih =>
    intro d r
    simp only [generateRoomsLoop, ih]
    split <;> rfl

theorem generateRooms_level (d : Dungeon) (mn mx : Int) (r : Rng) :
    (generateRooms d mn mx r).1.level = d.level := by
  simp only [generateRooms, generateRoomsLoop_level]
  split <;> simp [generateRoomsLoop_level]

theorem createHorizontalCorridor_level (d : Dungeon) (x1 x2 y : Int) :
    (createHorizontalCorridor d x1 x2 y).level = d.level := rfl

theorem createVerticalCorridor_level (d : Dungeon) (y1 y2 x : Int) :
    (createVerticalCorridor d y1 y2 x).level = d.level := rfl

theorem connectPair_level (d : Dungeon) (i : Nat) (r : Rng) :
    (connectPair d i r).1.level = d.level := by
  simp only [connectPair]
  split <;> rfl

theorem connectRoomsLoop_level (count : Nat) :
    ∀ (d : Dungeon) (i : Nat) (r : Rng),
      (connectRoomsLoop d count i r).1.level = d.level := by
  induction count with
  | zero => intro d i r; rfl
  | succ m ih =>
    intro d i r
    simp only [connectRoomsLoop, ih, connectPair_level]

theorem connectRooms_level (d : Dungeon) (r : Rng) :
    (connectRooms d r).1.level = d.level := by
  unfold connectRooms
  split
  · rfl
  · exact connectRoomsLoop_level _ _ _ _

theorem addDoorsCell_level (d : Dungeon) (x y : Int) (r : Rng) :
    (addDoorsCell d x y r).1.level = d.level := by
  unfold addDoorsCell
  repeat' split
  all_goals rfl

theorem addDoors_level (d : Dungeon) (r : Rng) :
    (addDoors d r).1.level = d.level := by
  unfold addDoors
  exact foldl_level_invariant _
    (fun st dy => foldl_level_invariant _ (fun st2 dx => addDoorsCell_level _ _ _ _) _ st) _ _

theorem addTreasureRoom_level (d : Dungeon) (room : Room) (r : Rng) :
    (addTreasureRoom d room r).1.level = d.level := by
  unfold addTreasureRoom
  repeat' split
  all_goals rfl

theorem addTreasures_level (d : Dungeon) (r : Rng) :
    (addTreasures d r).1.level = d.level := by
  unfold addTreasures
  exact foldl_level_invariant _ (fun st room => addTreasureRoom_level _ _ _) _ _

theorem addTrapsAttempt_level (attempts : Nat) :
    ∀ (d : Dungeon) (r : Rng), (addTrapsAttempt d attempts r).1.level = d.level := by
  induction attempts with
  | zero => intro d r; rfl
  | succ m ih =>
    intro d r
    simp only [addTrapsAttempt]
    split
    · rfl
    · exact ih _ _

theorem addTrapsLoop_level (n : Nat) :
    ∀ (d : Dungeon) (r : Rng), (addTrapsLoop d n r).1.level = d.level := by
  induction n with
  | zero => intro d r; rfl
  | succ m ih =>
    intro d r
    simp only [addTrapsLoop, ih, addTrapsAttempt_level]

theorem addTraps_level (d : Dungeon) (r : Rng) :
    (addTraps d r).1.level = d.level := by
  unfold addTraps
  exact addTrapsLoop_level _ _ _

theorem addFeatures_level (d : Dungeon) (r : Rng) :
    (addFeatures d r).1.level = d.level := by
  unfold addFeatures
  simp only [addTraps_level, addTreasures_level, addDoors_level]
  split <;> simp [addTraps_level, addTreasures_level, addDoors_level]

theorem spawnEnemiesLoop_level (n : Nat) :
    ∀ (d : Dungeon) (r : Rng), (spawnEnemiesLoop d n r).1.level = d.level := by
  induction n with
  | zero => intro d r; rfl
  | succ m ih =>
    intro d r
    simp only [spawnEnemiesLoop]
    split
    · rfl
    · rw [ih]

theorem spawnEnemies_level (d : Dungeon) (mn mx : Int) (r : Rng) :
    (spawnEnemies d mn mx r).1.level = d.level := by
  unfold spawnEnemies
  exact spawnEnemiesLoop_level _ _ _

theorem newDungeon_level (w h : Int) (r : Rng) :
    (newDungeon w h r).1.level = 1 := by
  unfold newDungeon
  rw [spawnEnemies_level, addFeatures_level, connectRooms_level, generateRooms_level]

theorem roomsOverlap_comm (a b : Room) : roomsOverlap a b = roomsOverlap b a := by
  have h : (roomsOverlap a b = true) ↔ (roomsOverlap b a = true) := by
    simp only [roomsOverlap, Bool.and_eq_true, decide_eq_true_eq]
    omega
  cases hab : roomsOverlap a b <;> cases hba : roomsOverlap b a <;> simp_all

/-- Pairwise non-overlap (with the 1-tile buffer) of a room list. -/
def RoomsOk (rs : List Room) : Prop :=
  List.Pairwise (fun a b => roomsOverlap a b = false) rs

theorem generateRoomsLoop_roomsOk (n : Nat) :
    ∀ (d : Dungeon) (r : Rng), RoomsOk d.rooms →
      RoomsOk (generateRoomsLoop d n r).1.rooms := by
  induction n with
  | zero => intro d r h; exact h
  | succ m ih =>
    intro d r h
    simp only [generateRoomsLoop]
    apply ih
    split
    · exact h
    · rename_i hno
      have hfalse : (d.rooms.any fun room =>
          roomsOverlap ⟨1 + (randIntn (d.width - (4 + (randIntn (10 - 4 + 1) r).1) - 2)
            (randIntn (10 - 4 + 1) (randIntn (10 - 4 + 1) r).2).2).1,
            1 + (randIntn (d.height - (4 + (randIntn (10 - 4 + 1) (randIntn (10 - 4 + 1) r).2).1) - 2)
              (randIntn (d.width - (4 + (randIntn (10 - 4 + 1) r).1) - 2)
                (randIntn (10 - 4 + 1) (randIntn (10 - 4 + 1) r).2).2).2).1,
            4 + (randIntn (10 - 4 + 1) r).1,
            4 + (randIntn (10 - 4 + 1) (randIntn (10 - 4 + 1) r).2).1⟩ room) = false := by
        revert hno
        generalize (d.rooms.any _) = bb
        cases bb <;> simp
      dsimp only
      rw [RoomsOk, List.pairwise_append]
      refine ⟨h, List.pairwise_singleton _ _, ?_⟩
      intro a ha b hb
      simp only [List.mem_singleton] at hb
      subst hb
      have hx := List.any_eq_false.mp hfalse a ha
      rw [roomsOverlap_comm]
      revert hx
      generalize roomsOverlap _ a = cc
      cases cc <;> simp

theorem generateRooms_ne_nil (d : Dungeon) (mn mx : Int) (r : Rng) :
    (generateRooms d mn mx r).1.rooms ≠ [] := by
  simp only [generateRooms]
  split
  · simp
  · rename_i hlen
    intro hnil
    rw [hnil] at hlen
    simp at hlen

theorem getD_mem_of_mem {α : Type} (l : List α) (k : Nat) (a : α) (ha : a ∈ l) :
    l.getD k a ∈ l := by
  by_cases h : k < l.length
  · rw [List.getD_eq_getElem?_getD, List.getElem?_eq_getElem h, Option.getD_some]
    exact List.getElem_mem h
  · rw [List.getD_eq_getElem?_getD, List.getElem?_eq_none (by omega), Option.getD_none]
    exact ha

theorem enemyStats_mkEnemy (x y : Int) (t : String × Char × Int × Int) :
    enemyStats (mkEnemy x y t) = t := rfl

theorem spawnEnemiesLoop_mem (n : Nat) :
    ∀ (d : Dungeon) (r : Rng) (e : Enemy),
      e ∈ (spawnEnemiesLoop d n r).1.enemies →
      e ∈ d.enemies ∨ enemyStats e ∈ enemyTypesFive := by
  induction n with
  | zero => intro d r e he; exact Or.inl he
  | succ m ih =>
    intro d r e he
    simp only [spawnEnemiesLoop] at he
    split at he
    · exact Or.inl he
    · rcases ih _ _ _ he with hmem | hstats
      · rcases List.mem_append.mp hmem with hold | hnew
        · exact Or.inl hold
        · simp only [List.mem_singleton] at hnew
          subst hnew
          refine Or.inr ?_
          rw [enemyStats_mkEnemy]
          exact getD_mem_of_mem _ _ _ (by simp [enemyTypesFive])
      · exact Or.inr hstats

theorem spawnEnemyNearPlayerLoop_mem (ps : List (Int × Int)) :
    ∀ (p : Player) (d : Dungeon) (r : Rng) (e : Enemy),
      e ∈ (spawnEnemyNearPlayerLoop p d ps r).1.enemies →
      e ∈ d.enemies ∨ enemyStats e ∈ enemyTypesTwo := by
  induction ps with
  | nil => intro p d r e he; exact Or.inl he
  | cons pos rest ih =>
    intro p d r e he
    simp only [spawnEnemyNearPlayerLoop] at he
    split at he
    · simp only at he
      rcases List.mem_append.mp he with hold | hnew
      · exact Or.inl hold
      · simp only [List.mem_singleton] at hnew
        subst hnew
        refine Or.inr ?_
        rw [enemyStats_mkEnemy]
        exact getD_mem_of_mem _ _ _ (by simp [enemyTypesTwo])
    · exact ih _ _ _ _ he

theorem getTileAt_congr (d1 d2 : Dungeon) (h1 : d1.width = d2.width)
    (h2 : d1.height = d2.height) (h3 : d1.grid = d2.grid) (x y : Int) :
    getTileAt d1 x y = getTileAt d2 x y := by
  unfold getTileAt gridGet
  rw [h1, h2, h3]

/-! ### Concrete fixtures used by witnesses and counterexamples -/

/-- A stream of zeros. -/
def rng0 : Rng := ⟨fun _ => 0, 0⟩

/-- A stream of twos. -/
def rng2 : Rng := ⟨fun _ => 2, 0⟩

/-- A level-1 player holding 250 experience. -/
def p250 : Player := ⟨0, 0, 20, 20, 3, 1, 0, 1, 250, []⟩

/-- A level-1 player holding 150 experience. -/
def pW5 : Player := ⟨0, 0, 20, 20, 3, 1, 0, 1, 150, []⟩

/-- A 6x5 all-Wall dungeon with one 2x2 room. -/
def d3 : Dungeon :=
  ⟨6, 5, List.replicate 5 (List.replicate 6 TileType.Wall), [⟨1, 1, 2, 2⟩], [], [], 1⟩

/-- A 3x3 all-Floor dungeon. -/
def d4 : Dungeon :=
  ⟨3, 3, List.replicate 3 (List.replicate 3 TileType.Floor), [], [], [], 1⟩

/-- A player standing at the middle of `d4`. -/
def p4 : Player := newPlayer 1 1

/-- A 1x1 dungeon whose only tile is a Trap. -/
def dT : Dungeon := ⟨1, 1, [[TileType.Trap]], [], [], [], 1⟩

/-- An Orc. -/
def e6 : Enemy := ⟨2, 2, 5, 'o', "Orc", 2, true⟩

/-- A 3x3 all-Floor dungeon holding the Orc `e6`. -/
def d6 : Dungeon :=
  ⟨3, 3, List.replicate 3 (List.replicate 3 TileType.Floor), [], [e6], [], 1⟩

/-- A level-2 3x3 dungeon whose center tile is StairsDown. -/
def dC1 : Dungeon :=
  ⟨3, 3,
   [[TileType.Wall, TileType.Wall, TileType.Wall],
    [TileType.Wall, TileType.StairsDown, TileType.Wall],
    [TileType.Wall, TileType.Wall, TileType.Wall]],
   [⟨1, 1, 1, 1⟩], [], [], 2⟩

/-- A fresh 80x24 all-Wall dungeon, as `NewDungeon` builds before generation. -/
def d9 : Dungeon :=
  ⟨80, 24, List.replicate 24 (List.replicate 80 TileType.Wall), [], [], [], 1⟩

/-- A 2x2 dungeon with one of several tiles in each cell. -/
def d10 : Dungeon :=
  ⟨2, 2, [[TileType.Wall, TileType.Floor], [TileType.Trap, TileType.Door]],
   [], [], [], 1⟩

/-! ### Claims -/

/-- C1: the claim says descending from level N yields level N+1.  The code
in the `">"` branch rebuilds the dungeon with `NewDungeon` (whose counter
is 1) and increments that fresh counter, so the level after descending is
always 2: descending from the level-2 dungeon `dC1` yields level 2 again,
not 3 — contradicting the claim (and the code's own "descend to the next
level" message) at every N ≥ 2. -/
theorem C1_descend_level_resets :
    dC1.level = 2 ∧ (descend (newPlayer 1 1) dC1 rng0).2.1.level = 2 := by
  refine ⟨rfl, ?_⟩
  have hs : getTileAt dC1 (newPlayer 1 1).x (newPlayer 1 1).y =
      TileType.StairsDown := by decide
  rw [descend, if_pos hs]
  have hnd : (newDungeon 80 24 rng0).1.level = 1 := newDungeon_level 80 24 rng0
  generalize hg : newDungeon 80 24 rng0 = ndr at hnd ⊢
  obtain ⟨nd, r2⟩ := ndr
  dsimp only at hnd ⊢
  omega

theorem checkLevelUp_p250_eval :
    checkLevelUp p250 = ⟨0, 0, 25, 25, 4, 1, 0, 2, 150, []⟩ := by
  rw [checkLevelUp]
  norm_num [p250]
  rw [checkLevelUp]
  norm_num

/-- C2 counterexample: the level-up check applied to a level-1 player with
250 experience does not produce level 3 with 50 experience left. -/
theorem C2_counterexample :
    ¬ ((checkLevelUp p250).level = 3 ∧ (checkLevelUp p250).exp = 50) := by
  rw [checkLevelUp_p250_eval]
  decide

/-- C2 (amended): at level 1 with 250 experience the cascade runs exactly
once (threshold 100 passes, then 150 < 200 stops it), yielding level 2
with 150 experience left, maxHealth and health 25, attack 4. -/
theorem C2_levelup_250 :
    (checkLevelUp p250).level = 2 ∧ (checkLevelUp p250).exp = 150 ∧
    (checkLevelUp p250).maxHealth = 25 ∧ (checkLevelUp p250).health = 25 ∧
    (checkLevelUp p250).attack = 4 := by
  rw [checkLevelUp_p250_eval]
  decide

/-- C3 counterexample: on `d3` with the zero stream the treasure placer
puts a Treasure tile at (1,1) and registers the matching item — but that
item's type is `ItemTreasure`, not the Gold type the claim names. -/
theorem C3_counterexample :
    (addTreasures d3 rng0).1.items =
      [⟨1, 1, ItemType.ItemTreasure, "Gold", "", 10, '$', false⟩] ∧
    getTileAt (addTreasures d3 rng0).1 1 1 = TileType.Treasure ∧
    ItemType.ItemTreasure ≠ ItemType.ItemGold := by
  decide

/-- C3 (amended): whenever the per-room treasure step takes its 40% branch,
it places one Treasure tile at a position inside the room and appends to
the item list one matching item at that same position — of type
`ItemTreasure` (not Gold-type), named "Gold", with value uniformly in
[10, 99]. -/
theorem C3_treasure_item (d : Dungeon) (room : Room) (r : Rng)
    (hwf : wellFormed d)
    (hx0 : 0 ≤ room.x) (hy0 : 0 ≤ room.y)
    (hw : 0 < room.width) (hh : 0 < room.height)
    (hxw : room.x + room.width ≤ d.width) (hyh : room.y + room.height ≤ d.height)
    (hbranch : ((r.stream r.idx : Int) % 100) < 40) :
    ∃ it : Item,
      (addTreasureRoom d room r).1.items = d.items ++ [it] ∧
      it.type = ItemType.ItemTreasure ∧
      it.name = "Gold" ∧
      10 ≤ it.value ∧ it.value ≤ 99 ∧
      room.x ≤ it.x ∧ it.x < room.x + room.width ∧
      room.y ≤ it.y ∧ it.y < room.y + room.height ∧
      getTileAt (addTreasureRoom d room r).1 it.x it.y = TileType.Treasure := by
  have hc : (randIntn 100 r).1 < 40 := by
    unfold randIntn
    rw [if_pos (by norm_num)]
    exact hbranch
  simp only [addTreasureRoom]
  rw [if_pos hc]
  refine ⟨_, rfl, rfl, rfl, ?_, ?_, ?_, ?_, ?_, ?_, ?_⟩
  · have := randIntn_nonneg 90 (randIntn room.height
      (randIntn room.width (randIntn 100 r).2).2).2
    dsimp only
    omega
  · have := randIntn_lt 90 (randIntn room.height
      (randIntn room.width (randIntn 100 r).2).2).2 (by norm_num)
    dsimp only
    omega
  · have := randIntn_nonneg room.width (randIntn 100 r).2
    dsimp only
    omega
  · have := randIntn_lt room.width (randIntn 100 r).2 hw
    dsimp only
    omega
  · have := randIntn_nonneg room.height (randIntn room.width (randIntn 100 r).2).2
    dsimp only
    omega
  · have := randIntn_lt room.height (randIntn room.width (randIntn 100 r).2).2 hh
    dsimp only
    omega
  · have hbx0 : 0 ≤ room.x + (randIntn room.width (randIntn 100 r).2).1 := by
      have := randIntn_nonneg room.width (randIntn 100 r).2
      omega
    have hbxw : room.x + (randIntn room.width (randIntn 100 r).2).1 < d.width := by
      have := randIntn_lt room.width (randIntn 100 r).2 hw
      omega
    have hby0 : 0 ≤ room.y +
        (randIntn room.height (randIntn room.width (randIntn 100 r).2).2).1 := by
      have := randIntn_nonneg room.height (randIntn room.width (randIntn 100 r).2).2
      omega
    have hbyh : room.y +
        (randIntn room.height (randIntn room.width (randIntn 100 r).2).2).1 < d.height := by
      have := randIntn_lt room.height (randIntn room.width (randIntn 100 r).2).2 hh
      omega
    exact getTileAt_gridSet_self d _ _ TileType.Treasure hwf hbx0 hby0 hbxw hbyh

theorem C3_witness :
    (wellFormed d3 ∧ (0:Int) ≤ 1 ∧ (0:Int) ≤ 1 ∧ (0:Int) < 2 ∧ (0:Int) < 2 ∧
      (1:Int) + 2 ≤ d3.width ∧ (1:Int) + 2 ≤ d3.height ∧
      ((rng0.stream rng0.idx : Int) % 100) < 40) ∧
    ∃ it : Item,
      (addTreasureRoom d3 ⟨1, 1, 2, 2⟩ rng0).1.items = d3.items ++ [it] ∧
      it.type = ItemType.ItemTreasure ∧
      it.name = "Gold" ∧
      10 ≤ it.value ∧ it.value ≤ 99 ∧
      (1:Int) ≤ it.x ∧ it.x < 1 + 2 ∧
      (1:Int) ≤ it.y ∧ it.y < 1 + 2 ∧
      getTileAt (addTreasureRoom d3 ⟨1, 1, 2, 2⟩ rng0).1 it.x it.y =
        TileType.Treasure :=
  ⟨⟨by decide, by decide, by decide, by decide, by decide, by decide, by decide,
    by decide⟩,
   C3_treasure_item d3 ⟨1, 1, 2, 2⟩ rng0 (by decide) (by decide) (by decide)
     (by decide) (by decide) (by decide) (by decide) (by decide)⟩

/-- Modelled from the spec: the claim says every spawn — the
rest-interruption one included — draws its type uniformly from the fixed
five-entry table; under the stream model of the random source, a uniform
draw over a table of length five is indexing by the draw value modulo
five. -/
def specUniformFiveChoice (k : Nat) : String × Char × Int × Int :=
  enemyTypesFive.getD (k % 5) ("Goblin", 'g', 3, 1)

/-- C4 counterexample: on `d4` with a stream of twos the rest-interruption
spawner produces a Goblin (its table has only two entries, and 2 mod 2 is
0), while a uniform five-entry-table choice at the same draw value 2 gives
the Troll — so the rest-interruption enemy is not drawn from the
five-entry table as the claim states. -/
theorem C4_counterexample :
    (spawnEnemyNearPlayer p4 d4 rng2).1.enemies =
      [⟨0, 0, 3, 'g', "Goblin", 1, true⟩] ∧
    enemyStats ⟨0, 0, 3, 'g', "Goblin", 1, true⟩ = ("Goblin", 'g', 3, 1) ∧
    specUniformFiveChoice 2 = ("Troll", 'T', 8, 3) ∧
    (("Goblin", 'g', 3, 1) : String × Char × Int × Int) ≠ ("Troll", 'T', 8, 3) := by
  decide

/-- C4 (amended): every enemy appended by the level-generation spawner has
the stats of one of the five table entries (Goblin/Orc/Troll/Rat/Skeleton
with the listed health and damage), but the single enemy spawned next to
the player by the rest-interruption event is drawn from a two-entry table
holding only Goblin and Rat. -/
theorem C4_spawn_tables :
    (∀ (d : Dungeon) (mn mx : Int) (r : Rng) (e : Enemy),
        e ∈ (spawnEnemies d mn mx r).1.enemies →
        e ∈ d.enemies ∨ enemyStats e ∈ enemyTypesFive) ∧
    (∀ (p : Player) (d : Dungeon) (r : Rng) (e : Enemy),
        e ∈ (spawnEnemyNearPlayer p d r).1.enemies →
        e ∈ d.enemies ∨ enemyStats e ∈ enemyTypesTwo) := by
  constructor
  · intro d mn mx r e he
    exact spawnEnemiesLoop_mem _ _ _ _ (by simpa [spawnEnemies] using he)
  · intro p d r e he
    exact spawnEnemyNearPlayerLoop_mem _ _ _ _ _
      (by simpa [spawnEnemyNearPlayer] using he)

theorem C4_witness :
    (⟨0, 0, 3, 'g', "Goblin", 1, true⟩ : Enemy) ∈ d4.enemies ∨
      enemyStats ⟨0, 0, 3, 'g', "Goblin", 1, true⟩ ∈ enemyTypesTwo :=
  C4_spawn_tables.2 p4 d4 rng2 ⟨0, 0, 3, 'g', "Goblin", 1, true⟩ (by decide)

/-- C5: the level-up check is the while-loop the spec describes: below the
threshold it is the identity; at or above it, it performs one spec step
(level +1, experience minus the old threshold, maxHealth +5, full heal to
the new maxHealth, attack +1) and recurses on the result, so that after
the call the remaining experience is below 100 times the final level. -/
theorem C5_levelup_loop (p : Player) :
    (p.exp < 100 * p.level → checkLevelUp p = p) ∧
    (100 * p.level ≤ p.exp → checkLevelUp p = checkLevelUp (levelUpStepSpec p)) ∧
    ((levelUpStepSpec p).level = p.level + 1 ∧
     (levelUpStepSpec p).exp = p.exp - 100 * p.level ∧
     (levelUpStepSpec p).maxHealth = p.maxHealth + 5 ∧
     (levelUpStepSpec p).health = (levelUpStepSpec p).maxHealth ∧
     (levelUpStepSpec p).attack = p.attack + 1) ∧
    (1 ≤ p.level → (checkLevelUp p).exp < 100 * (checkLevelUp p).level) :=
  ⟨checkLevelUp_of_lt p, checkLevelUp_of_ge p, levelUpStepSpec_fields p,
   checkLevelUp_exp_lt p⟩

theorem C5_witness :
    checkLevelUp pW5 = checkLevelUp (levelUpStepSpec pW5) ∧
    (checkLevelUp pW5).exp < 100 * (checkLevelUp pW5).level :=
  ⟨(C5_levelup_loop pW5).2.1 (by decide), (C5_levelup_loop pW5).2.2.2 (by decide)⟩

/-- C6: when the attacked enemy survives the hit, the player loses exactly
`max 1 (enemy damage - player defense)` health, and that counterattack
damage is at least 1 for every damage/defense combination. -/
theorem C6_counterattack (p : Player) (d : Dungeon) (i : Nat) (r : Rng)
    (e : Enemy) (he : d.enemies.get? i = some e)
    (hs : 0 < e.health - p.attack) :
    (attackEnemy p d i r).1.health = p.health - max 1 (e.damage - p.defense) ∧
    1 ≤ max 1 (e.damage - p.defense) := by
  have hdm : (if e.damage - p.defense < 1 then (1 : Int) else e.damage - p.defense) =
      max 1 (e.damage - p.defense) := by
    split <;> omega
  constructor
  · unfold attackEnemy
    rw [he]
    dsimp only
    rw [if_neg (by omega : ¬ e.health - p.attack ≤ (0 : Int))]
    dsimp only
    rw [hdm]
  · omega

theorem C6_witness :
    d6.enemies.get? 0 = some e6 ∧ 0 < e6.health - (newPlayer 0 0).attack ∧
    ((attackEnemy (newPlayer 0 0) d6 0 rng0).1.health =
        (newPlayer 0 0).health - max 1 (e6.damage - (newPlayer 0 0).defense) ∧
      1 ≤ max 1 (e6.damage - (newPlayer 0 0).defense)) :=
  ⟨by decide, by decide,
   C6_counterattack (newPlayer 0 0) d6 0 rng0 e6 (by decide) (by decide)⟩

/-- C7: for every index outside the inventory bounds (negative or at least
the inventory length) `UseItem` reports the invalid outcome and returns
the player entirely unchanged — inventory, health, attack, defense and all
other fields. -/
theorem C7_useItem_invalid (p : Player) (itemIndex : Int)
    (h : itemIndex < 0 ∨ (p.inventory.length : Int) ≤ itemIndex) :
    useItem p itemIndex = (p, false) := by
  unfold useItem
  rw [if_pos h]

theorem C7_witness :
    ((5 : Int) < 0 ∨ ((newPlayer 0 0).inventory.length : Int) ≤ 5) ∧
    useItem (newPlayer 0 0) 5 = (newPlayer 0 0, false) :=
  ⟨by decide, C7_useItem_invalid (newPlayer 0 0) 5 (by decide)⟩

/-- C8: arriving on a Trap tile costs between 2 and 4 health and turns the
tile into Floor, and a later arrival of the player at that same cell (in
the resulting dungeon) leaves health unchanged — a disarmed trap cannot
retrigger. -/
theorem C8_trap_disarms (p : Player) (d : Dungeon) (r : Rng)
    (hwf : wellFormed d) (ht : getTileAt d p.x p.y = TileType.Trap) :
    (∃ dmg : Int, 2 ≤ dmg ∧ dmg ≤ 4 ∧
      (checkPosition p d r).1.health = p.health - dmg) ∧
    getTileAt (checkPosition p d r).2.1 p.x p.y = TileType.Floor ∧
    (∀ (p2 : Player) (r2 : Rng), p2.x = p.x → p2.y = p.y →
      (checkPosition p2 (checkPosition p d r).2.1 r2).1.health = p2.health) := by
  obtain ⟨hx0, hy0, hx, hy⟩ := getTileAt_inBounds d p.x p.y (by rw [ht]; decide)
  have hct := checkTileEffect_trap p d r ht
  have hcp : checkPosition p d r =
      checkItemPickup { p with health := p.health - (2 + (randIntn 3 r).1) }
        { d with grid := gridSet d.grid p.x p.y TileType.Floor }
        (randIntn 3 r).2 := by
    unfold checkPosition
    rw [hct]
  obtain ⟨hh, hg, hw, hht⟩ := checkItemPickup_preserves
    { p with health := p.health - (2 + (randIntn 3 r).1) }
    { d with grid := gridSet d.grid p.x p.y TileType.Floor }
    (randIntn 3 r).2
  have hfloor : getTileAt (checkPosition p d r).2.1 p.x p.y = TileType.Floor := by
    rw [getTileAt_congr (checkPosition p d r).2.1
      { d with grid := gridSet d.grid p.x p.y TileType.Floor }
      (by rw [hcp]; exact hw) (by rw [hcp]; exact hht) (by rw [hcp]; exact hg)]
    exact getTileAt_gridSet_self d p.x p.y TileType.Floor hwf hx0 hy0 hx hy
  refine ⟨?_, hfloor, ?_⟩
  · refine ⟨2 + (randIntn 3 r).1, ?_, ?_, ?_⟩
    · have := randIntn_nonneg 3 r
      omega
    · have := randIntn_lt 3 r (by norm_num)
      omega
    · rw [hcp, hh]
  · intro p2 r2 hpx hpy
    set X := (checkPosition p d r).2.1 with hX
    have hf2 : getTileAt X p2.x p2.y = TileType.Floor := by
      rw [hpx, hpy]
      exact hfloor
    unfold checkPosition
    rw [checkTileEffect_floor _ _ _ hf2]
    dsimp only
    exact (checkItemPickup_preserves p2 X r2).1

theorem C8_witness :
    wellFormed dT ∧
    getTileAt dT (newPlayer 0 0).x (newPlayer 0 0).y = TileType.Trap ∧
    getTileAt (checkPosition (newPlayer 0 0) dT rng0).2.1 (newPlayer 0 0).x
      (newPlayer 0 0).y = TileType.Floor ∧
    (checkPosition (newPlayer 0 0) (checkPosition (newPlayer 0 0) dT rng0).2.1
      rng0).1.health = (newPlayer 0 0).health :=
  ⟨by decide, by decide,
   (C8_trap_disarms (newPlayer 0 0) dT rng0 (by decide) (by decide)).2.1,
   (C8_trap_disarms (newPlayer 0 0) dT rng0 (by decide) (by decide)).2.2
     (newPlayer 0 0) rng0 rfl rfl⟩

/-- C9: room generation starting from an empty room list always produces a
non-empty room list in which any two distinct rooms pass the source's
padded-box disjointness test: `roomsOverlap` (the axis-aligned test with
the 1-tile buffer) is false on every pair of distinct rooms. -/
theorem C9_rooms_nonempty_disjoint (d : Dungeon) (minRooms maxRooms : Int)
    (r : Rng) (h0 : d.rooms = []) :
    (generateRooms d minRooms maxRooms r).1.rooms ≠ [] ∧
    ∀ (i j : Fin (generateRooms d minRooms maxRooms r).1.rooms.length),
      i ≠ j →
      roomsOverlap ((generateRooms d minRooms maxRooms r).1.rooms.get i)
        ((generateRooms d minRooms maxRooms r).1.rooms.get j) = false := by
  have hOk : RoomsOk (generateRooms d minRooms maxRooms r).1.rooms := by
    simp only [generateRooms]
    split
    · rename_i hlen
      rw [List.length_eq_zero] at hlen
      rw [hlen]
      simp [RoomsOk]
    · exact generateRoomsLoop_roomsOk _ _ _ (by rw [h0]; exact List.Pairwise.nil)
  refine ⟨generateRooms_ne_nil d minRooms maxRooms r, ?_⟩
  intro i j hij
  rcases Nat.lt_or_ge i.val j.val with hlt | hge
  · exact List.pairwise_iff_get.mp hOk i j hlt
  · have hlt : j.val < i.val := by
      have hne : i.val ≠ j.val := fun hv => hij (Fin.ext hv)
      omega
    rw [roomsOverlap_comm]
    exact List.pairwise_iff_get.mp hOk j i hlt

theorem C9_witness :
    d9.rooms = [] ∧ (generateRooms d9 4 8 rng0).1.rooms ≠ [] :=
  ⟨rfl, (C9_rooms_nonempty_disjoint d9 4 8 rng0 rfl).1⟩

/-- C10: on a well-formed dungeon the two public tile queries are total:
out of bounds, `getTileAt` answers Wall and `isWalkable` answers false;
in bounds, `getTileAt` answers exactly the stored grid cell (witnessed by
in-range indices, so no unguarded indexing is involved) and `isWalkable`
answers true exactly when that tile is Floor, Door, Treasure, Trap or
StairsDown. -/
theorem C10_tile_queries_total (d : Dungeon) (hwf : wellFormed d) (x y : Int) :
    ((x < 0 ∨ y < 0 ∨ x ≥ d.width ∨ y ≥ d.height) →
      getTileAt d x y = TileType.Wall ∧ isWalkable d x y = false) ∧
    (0 ≤ x → 0 ≤ y → x < d.width → y < d.height →
      ∃ (hy : y.toNat < d.grid.length)
        (hx : x.toNat < (d.grid.get ⟨y.toNat, hy⟩).length),
        getTileAt d x y = (d.grid.get ⟨y.toNat, hy⟩).get ⟨x.toNat, hx⟩ ∧
        (isWalkable d x y = true ↔
          (getTileAt d x y = TileType.Floor ∨ getTileAt d x y = TileType.Door ∨
           getTileAt d x y = TileType.Treasure ∨ getTileAt d x y = TileType.Trap ∨
           getTileAt d x y = TileType.StairsDown))) := by
  obtain ⟨hlen, hrows⟩ := hwf
  constructor
  · intro hoob
    constructor
    · unfold getTileAt
      rw [if_pos hoob]
    · unfold isWalkable
      rw [if_pos hoob]
  · intro hx0 hy0 hxw hyh
    have hy : y.toNat < d.grid.length := by omega
    have hrl : (d.grid.get ⟨y.toNat, hy⟩).length = d.width.toNat := by
      rw [List.get_eq_getElem]
      exact hrows _ (List.getElem_mem hy)
    have hx : x.toNat < (d.grid.get ⟨y.toNat, hy⟩).length := by
      rw [hrl]
      omega
    have hgg : gridGet d.grid x y = (d.grid.get ⟨y.toNat, hy⟩).get ⟨x.toNat, hx⟩ := by
      unfold gridGet
      simp only [List.getD_eq_getElem?_getD]
      rw [List.getElem?_eq_getElem hy, Option.getD_some]
      have hx2 : x.toNat < (d.grid[y.toNat]).length := hx
      rw [List.getElem?_eq_getElem hx2, Option.getD_some]
      simp [List.get_eq_getElem]
    have hne : ¬ (x < 0 ∨ y < 0 ∨ x ≥ d.width ∨ y ≥ d.height) := by omega
    have hgt : getTileAt d x y = gridGet d.grid x y := by
      unfold getTileAt
      rw [if_neg hne]
    refine ⟨hy, hx, by rw [hgt, hgg], ?_⟩
    rw [hgt]
    unfold isWalkable
    rw [if_neg hne]
    cases hcase : gridGet d.grid x y <;> simp [hcase]

theorem C10_witness :
    wellFormed d10 ∧
    ((5 : Int) < 0 ∨ (0 : Int) < 0 ∨ (5 : Int) ≥ d10.width ∨ (0 : Int) ≥ d10.height) ∧
    getTileAt d10 5 0 = TileType.Wall ∧ isWalkable d10 5 0 = false ∧
    isWalkable d10 1 1 = true :=
  ⟨by decide, by decide,
   ((C10_tile_queries_total d10 (by decide) 5 0).1 (by decide)).1,
   ((C10_tile_queries_total d10 (by decide) 5 0).1 (by decide)).2,
   by
    obtain ⟨hy, hx, hA, hB⟩ :=
      (C10_tile_queries_total d10 (by decide) 1 1).2 (by decide) (by decide)
        (by decide) (by decide)
    rw [hB]
    decide⟩
